import Mathlib

/-!
Verification of the DGEWS input state machine and event-translation layer.

The definitions below are a shallow embedding of the Rust sources:
  * `KeyState`            — src/src/keystates.rs
  * `Keyboard`            — src/target/package/dgews-0.0.1/src/keyboard.rs
                            (the keyboard module referenced by src/src/lib.rs)
  * `Mouse`               — src/src/mouse.rs
  * event and control types — src/src/events.rs, src/src/controlflow.rs
  * `Manager.translate`, `Manager.drain`, `Manager.runCycle`,
    `Manager.get_key`, `Manager.get_char`, `Manager.get_mouse_button`
                          — src/src/manager.rs

Rust `HashMap<usize, KeyState>` tables that are pre-populated on the keys
`0 .. n_keys` are embedded as a total function `Nat → KeyState` guarded by
`n_keys`: a lookup of a populated key returns `some`, and the `unwrap`
panic on a missing key is embedded as `none`.  A Rust `panic!` anywhere
(including `ControlFlow::ExitWithCode`, which panics by design) is made
explicit in the result type.  `i16` coordinates are embedded as `Int`
with wrap-around into the i16 range (`wrap16`) where the code subtracts.
-/

namespace DGEWS

/-- Embeds enum `Action` from src/src/events.rs. -/
inductive Action where
  | Press
  | Release
  | Down
  | None
deriving DecidableEq, Repr

/-- Embeds `KeyState` from src/src/keystates.rs: the tri-bit cell for one key/button. -/
structure KeyState where
  is_down : Bool
  is_released : Bool
  is_changed : Bool
deriving DecidableEq, Repr

/-- Embeds `KeyState::new` from src/src/keystates.rs. -/
def KeyState.new (is_down is_released is_changed : Bool) : KeyState :=
  { is_down := is_down, is_released := is_released, is_changed := is_changed }

/-- Embeds `KeyState::set_down` from src/src/keystates.rs. -/
def KeyState.set_down (st : KeyState) (value : Bool) : KeyState :=
  { st with is_down := value }

/-- Embeds `KeyState::set_released` from src/src/keystates.rs. -/
def KeyState.set_released (st : KeyState) (value : Bool) : KeyState :=
  { st with is_released := value }

/-- Embeds `KeyState::set_changed` from src/src/keystates.rs. -/
def KeyState.set_changed (st : KeyState) (value : Bool) : KeyState :=
  { st with is_changed := value }

/-- Pointwise update of a table embedded as a function, i.e. the effect of
writing through `HashMap::get_mut(&k).unwrap()` on the populated entry `k`. -/
def updFn {α : Type} (f : Nat → α) (k : Nat) (v : α) : Nat → α :=
  fun i => if i = k then v else f i

/-- Embeds `Keyboard` from src/target/package/dgews-0.0.1/src/keyboard.rs.
`keys`/`chars` embed the two `HashMap`s pre-populated on `0 .. n_keys`. -/
structure Keyboard where
  keys : Nat → KeyState
  chars : Nat → Bool
  autorepeat : Bool
  n_keys : Nat

/-- Embeds `Keyboard::from_nkeys`: every entry in `0 .. n_keys` starts all-false. -/
def Keyboard.from_nkeys (autorepeat : Bool) (n_keys : Nat) : Keyboard :=
  { keys := fun _ => KeyState.new false false false
    chars := fun _ => false
    autorepeat := autorepeat
    n_keys := n_keys }

/-- Embeds `Keyboard::new`: a 256-entry table. -/
def Keyboard.new (autorepeat : Bool) : Keyboard :=
  Keyboard.from_nkeys autorepeat 256

/-- Embeds `Keyboard::is_down`; `none` embeds the `unwrap` panic on an
unpopulated keycode. -/
def Keyboard.is_down (kb : Keyboard) (keycode : Nat) : Option Bool :=
  if keycode < kb.n_keys then some (kb.keys keycode).is_down else none

/-- Embeds `Keyboard::is_released`; `none` embeds the `unwrap` panic. -/
def Keyboard.is_released (kb : Keyboard) (keycode : Nat) : Option Bool :=
  if keycode < kb.n_keys then some (kb.keys keycode).is_released else none

/-- Embeds `Keyboard::is_changed`; `none` embeds the `unwrap` panic. -/
def Keyboard.is_changed (kb : Keyboard) (keycode : Nat) : Option Bool :=
  if keycode < kb.n_keys then some (kb.keys keycode).is_changed else none

/-- Embeds `Keyboard::is_char`; `none` embeds the `unwrap` panic. -/
def Keyboard.is_char (kb : Keyboard) (char : Nat) : Option Bool :=
  if char < kb.n_keys then some (kb.chars char) else none

/-- Embeds `Keyboard::set_is_down`; `none` embeds the `unwrap` panic. -/
def Keyboard.set_is_down (kb : Keyboard) (keycode : Nat) (value : Bool) :
    Option Keyboard :=
  if keycode < kb.n_keys then
    some { kb with keys := updFn kb.keys keycode ((kb.keys keycode).set_down value) }
  else none

/-- Embeds `Keyboard::set_is_released`; `none` embeds the `unwrap` panic. -/
def Keyboard.set_is_released (kb : Keyboard) (keycode : Nat) (value : Bool) :
    Option Keyboard :=
  if keycode < kb.n_keys then
    some { kb with keys := updFn kb.keys keycode ((kb.keys keycode).set_released value) }
  else none

/-- Embeds `Keyboard::set_is_changed`; `none` embeds the `unwrap` panic. -/
def Keyboard.set_is_changed (kb : Keyboard) (keycode : Nat) (value : Bool) :
    Option Keyboard :=
  if keycode < kb.n_keys then
    some { kb with keys := updFn kb.keys keycode ((kb.keys keycode).set_changed value) }
  else none

/-- Embeds `Keyboard::set_is_char`; `none` embeds the `unwrap` panic. -/
def Keyboard.set_is_char (kb : Keyboard) (char : Nat) (pressed : Bool) :
    Option Keyboard :=
  if char < kb.n_keys then
    some { kb with chars := updFn kb.chars char pressed }
  else none

/-- Embeds `Keyboard::clear`: resets the `changed` and `char` flag of every
populated key (`for i in 0..n_keys`), touching `down` and `released`
of no key. -/
def Keyboard.clear (kb : Keyboard) : Keyboard :=
  { kb with
    keys := fun i => if i < kb.n_keys then (kb.keys i).set_changed false else kb.keys i
    chars := fun i => if i < kb.n_keys then false else kb.chars i }

/-- Wraps an integer into the `i16` range, matching the release-mode
(wrapping) semantics of the `i16` subtraction in src/src/mouse.rs. -/
def wrap16 (z : Int) : Int :=
  (z + 32768) % 65536 - 32768

/-- Predicate: the integer fits in an `i16`. -/
def isI16 (z : Int) : Prop :=
  -32768 ≤ z ∧ z ≤ 32767

instance (z : Int) : Decidable (isI16 z) := by
  unfold isI16; infer_instance

/-- Embeds `Mouse` from src/src/mouse.rs: current and previous `i16` position plus
one `KeyState` per button slot. -/
structure Mouse where
  x : Int
  y : Int
  last_x : Int
  last_y : Int
  l_button : KeyState
  r_button : KeyState
  m_button : KeyState
  x1_button : KeyState
  x2_button : KeyState
deriving DecidableEq, Repr

/-- Embeds `Mouse::new`: origin position, all buttons all-false. -/
def Mouse.new : Mouse :=
  { x := 0, y := 0, last_x := 0, last_y := 0
    l_button := KeyState.new false false false
    r_button := KeyState.new false false false
    m_button := KeyState.new false false false
    x1_button := KeyState.new false false false
    x2_button := KeyState.new false false false }

/-- Embeds `Mouse::clear_keystates`: resets exactly the five `changed` flags. -/
def Mouse.clear_keystates (m : Mouse) : Mouse :=
  { m with
    l_button := m.l_button.set_changed false
    r_button := m.r_button.set_changed false
    m_button := m.m_button.set_changed false
    x1_button := m.x1_button.set_changed false
    x2_button := m.x2_button.set_changed false }

/-- Embeds `Mouse::update_pos`: shifts current into previous, stores the new
current position. -/
def Mouse.update_pos (m : Mouse) (x y : Int) : Mouse :=
  { m with last_x := m.x, last_y := m.y, x := x, y := y }

/-- Embeds `Mouse::x_offset`: `self.x - self.last_x` at type `i16`. -/
def Mouse.x_offset (m : Mouse) : Int :=
  wrap16 (m.x - m.last_x)

/-- Embeds `Mouse::y_offset`: `self.y - self.last_y` at type `i16`. -/
def Mouse.y_offset (m : Mouse) : Int :=
  wrap16 (m.y - m.last_y)

/-- Embeds `Point` from src/src/common.rs. -/
structure Point where
  x : Int
  y : Int
deriving DecidableEq, Repr

/-- Embeds `ControlFlow` from src/src/controlflow.rs. -/
inductive ControlFlow where
  | Continue
  | Exit
  | ExitWithCode (code : Nat)
deriving DecidableEq, Repr

/-- Embeds `WindowEvents` from src/src/events.rs. -/
inductive WindowEvents where
  | Create
  | Close
  | Maximized (width height : Int)
  | Minimized (width height : Int)
  | FramebufferChanged (width height : Int)
  | Moved (x y : Int)
  | SetFocus
  | LostFocus
deriving DecidableEq, Repr

/-- Embeds `KeyboardEvents` from src/src/events.rs. -/
inductive KeyboardEvents where
  | Key (keycode : Nat) (action : Action)
  | Char (keycode : Nat)
deriving DecidableEq, Repr

/-- Embeds `MouseEvents` from src/src/events.rs. -/
inductive MouseEvents where
  | Scroll (y_offset : Int)
  | LButton (action : Action) (pos : Point)
  | RButton (action : Action) (pos : Point)
  | MButton (action : Action) (pos : Point)
  | X1Button (action : Action) (pos : Point)
  | X2Button (action : Action) (pos : Point)
  | MouseMove (x y last_x last_y dx dy : Int)
deriving DecidableEq, Repr

/-- Embeds `Events` from src/src/events.rs, the consumer-facing tagged union.
`Events.None` is the idle variant (`#[default]` in the source). -/
inductive Events where
  | WindowEvents (id : Nat) (event : DGEWS.WindowEvents)
  | KeyboardEvents (id : Nat) (event : DGEWS.KeyboardEvents)
  | MouseEvents (id : Nat) (event : DGEWS.MouseEvents)
  | None
deriving DecidableEq, Repr

/-- Embeds `MainWindowEvents` from src/src/events.rs (producer-side vocabulary). -/
inductive MainWindowEvents where
  | Create
  | Close
  | Maximized (width height : Int)
  | Minimized (width height : Int)
  | FramebufferChanged (width height : Int)
  | Moved (x y : Int)
  | SetFocus
  | LostFocus
deriving DecidableEq, Repr

/-- Embeds `MainKeyboardEvents` from src/src/events.rs. -/
inductive MainKeyboardEvents where
  | Key (up : Bool) (is_changed : Bool) (keycode : Nat)
  | Char (keycode : Nat)
deriving DecidableEq, Repr

/-- Embeds `MainMouseEvents` from src/src/events.rs. -/
inductive MainMouseEvents where
  | Scroll (y_offset : Int)
  | LButton (up : Bool) (pos : Point)
  | RButton (up : Bool) (pos : Point)
  | MButton (up : Bool) (pos : Point)
  | XButton (up : Bool) (wparam : Nat) (pos : Point)
  | MouseMove (x y : Int)
deriving DecidableEq, Repr

/-- Embeds `MainEvents` from src/src/events.rs. -/
inductive MainEvents where
  | MainWindowEvent (id : Nat) (event : MainWindowEvents)
  | MainKeyboardEvent (id : Nat) (event : MainKeyboardEvents)
  | MainMouseEvent (id : Nat) (event : MainMouseEvents)
deriving DecidableEq, Repr

/-- Mouse-button virtual keycodes from src/src/keycodes.rs (`Button` module). -/
def Button.LBUTTON : Nat := 0x01

/-- Embeds `Button::RBUTTON` from src/src/keycodes.rs. -/
def Button.RBUTTON : Nat := 0x02

/-- Embeds `Button::MBUTTON` from src/src/keycodes.rs. -/
def Button.MBUTTON : Nat := 0x04

/-- Embeds `Button::XBUTTON1` from src/src/keycodes.rs. -/
def Button.XBUTTON1 : Nat := 0x05

/-- Embeds `Button::XBUTTON2` from src/src/keycodes.rs. -/
def Button.XBUTTON2 : Nat := 0x06

/-- Embeds `Key::ALT` from src/src/keycodes.rs. -/
def Key.ALT : Nat := 0x12

/-- Embeds the winapi constants used by the XButton arm of `Manager::run`:
`XBUTTON1 = 0x0001`. -/
def winapi.XBUTTON1 : Nat := 0x0001

/-- Embeds winapi `XBUTTON2 = 0x0002`. -/
def winapi.XBUTTON2 : Nat := 0x0002

/-- Embeds winapi `MK_XBUTTON1 = 0x0020`. -/
def winapi.MK_XBUTTON1 : Nat := 0x0020

/-- Embeds winapi `MK_XBUTTON2 = 0x0040`. -/
def winapi.MK_XBUTTON2 : Nat := 0x0040

/-- Embeds winapi `HIWORD`: upper 16 bits of a 32-bit word. -/
def HIWORD (w : Nat) : Nat :=
  (w >>> 16) &&& 0xFFFF

/-- Embeds winapi `LOWORD`: lower 16 bits of a 32-bit word. -/
def LOWORD (w : Nat) : Nat :=
  w &&& 0xFFFF

/-- The input-state part of `Manager` (src/src/manager.rs).  The window
table, timer and the channel endpoints are not part of the state the
claims are about; the channel itself is embedded as the `List MainEvents`
argument of `Manager.drain` (FIFO, per the std `mpsc` contract). -/
structure Manager where
  mouse : Mouse
  keyboard : Keyboard
  close : Bool

/-- Embeds `Manager::default`: fresh mouse, fresh 256-key keyboard with
autorepeat off, `close = false`. -/
def Manager.default : Manager :=
  { mouse := Mouse.new, keyboard := Keyboard.new false, close := false }

/-- The translation step of `Manager::run` (src/src/manager.rs lines
230-500): one received `MainEvents` is matched into one consumer-facing
`Events`, mutating the keyboard/mouse state as a side effect.  `none`
embeds a panic from a keyboard-table `unwrap` at an unpopulated keycode.
The debug side effects of the `Key::ALT` arm (a `println!`) and the
window-table removal in the `Close` arm are outside this state and are
dropped; everything else is arm-for-arm the source `match`. -/
def Manager.translate (m : Manager) (main_events : MainEvents) :
    Option (Events × Manager) :=
  match main_events with
  | .MainWindowEvent id event =>
    match event with
    | .Create => some (.WindowEvents id .Create, m)
    | .Close => some (.WindowEvents id .Close, m)
    | .Maximized width height => some (.WindowEvents id (.Maximized width height), m)
    | .Minimized width height => some (.WindowEvents id (.Minimized width height), m)
    | .FramebufferChanged width height =>
        some (.WindowEvents id (.FramebufferChanged width height), m)
    | .Moved x y => some (.WindowEvents id (.Moved x y), m)
    | .SetFocus => some (.WindowEvents id .SetFocus, m)
    | .LostFocus => some (.WindowEvents id .LostFocus, m)
  | .MainKeyboardEvent id event =>
    match event with
    | .Key up is_changed keycode =>
      if keycode = Key.ALT then
        some (.KeyboardEvents id (.Key keycode .Release), m)
      else if up then do
        let kb ← m.keyboard.set_is_down keycode false
        let kb ← kb.set_is_changed keycode true
        let kb ← kb.set_is_released keycode true
        some (.KeyboardEvents id (.Key keycode .Release), { m with keyboard := kb })
      else do
        let kb ← m.keyboard.set_is_down keycode true
        let kb ← kb.set_is_changed keycode is_changed
        let c ← kb.is_changed keycode
        if c = false then
          some (.KeyboardEvents id (.Key keycode .Down), { m with keyboard := kb })
        else do
          let r ← kb.is_released keycode
          if r then do
            let kb ← kb.set_is_released keycode false
            some (.KeyboardEvents id (.Key keycode .Press), { m with keyboard := kb })
          else
            some (.None, { m with keyboard := kb })
    | .Char keycode => do
        let kb ← m.keyboard.set_is_char keycode true
        some (.KeyboardEvents id (.Char keycode), { m with keyboard := kb })
  | .MainMouseEvent id event =>
    match event with
    | .Scroll y_offset => some (.MouseEvents id (.Scroll y_offset), m)
    | .LButton up pos =>
      if up then
        let mo := (((m.mouse.l_button.set_down false).set_released true).set_changed true)
        some (.MouseEvents id (.LButton .Release pos), { m with mouse := { m.mouse with l_button := mo } })
      else
        let mo := (((m.mouse.l_button.set_down true).set_released false).set_changed true)
        some (.MouseEvents id (.LButton .Press pos), { m with mouse := { m.mouse with l_button := mo } })
    | .RButton up pos =>
      -- NOTE: the source emits `MouseEvents::LButton` in both RButton arms
      -- (src/src/manager.rs lines 378-397) while updating the r_button state.
      if up then
        let mo := (((m.mouse.r_button.set_down false).set_released true).set_changed true)
        some (.MouseEvents id (.LButton .Release pos), { m with mouse := { m.mouse with r_button := mo } })
      else
        let mo := (((m.mouse.r_button.set_down true).set_released false).set_changed true)
        some (.MouseEvents id (.LButton .Press pos), { m with mouse := { m.mouse with r_button := mo } })
    | .MButton up pos =>
      -- NOTE: the source emits `MouseEvents::LButton` in both MButton arms
      -- (src/src/manager.rs lines 405-424) while updating the m_button state.
      if up then
        let mo := (((m.mouse.m_button.set_down false).set_released true).set_changed true)
        some (.MouseEvents id (.LButton .Release pos), { m with mouse := { m.mouse with m_button := mo } })
      else
        let mo := (((m.mouse.m_button.set_down true).set_released false).set_changed true)
        some (.MouseEvents id (.LButton .Press pos), { m with mouse := { m.mouse with m_button := mo } })
    | .XButton up wparam pos =>
      if up then
        if 0 < HIWORD wparam &&& winapi.XBUTTON1 then
          let mo := (((m.mouse.x1_button.set_down false).set_released true).set_changed true)
          some (.MouseEvents id (.X1Button .Release pos), { m with mouse := { m.mouse with x1_button := mo } })
        else if 0 < HIWORD wparam &&& winapi.XBUTTON2 then
          let mo := (((m.mouse.x2_button.set_down false).set_released true).set_changed true)
          some (.MouseEvents id (.X2Button .Release pos), { m with mouse := { m.mouse with x2_button := mo } })
        else
          some (.None, m)
      else
        if 0 < LOWORD wparam &&& winapi.MK_XBUTTON1 then
          let mo := (((m.mouse.x1_button.set_down true).set_released false).set_changed true)
          some (.MouseEvents id (.X1Button .Press pos), { m with mouse := { m.mouse with x1_button := mo } })
        else if 0 < LOWORD wparam &&& winapi.MK_XBUTTON2 then
          let mo := (((m.mouse.x2_button.set_down true).set_released false).set_changed true)
          some (.MouseEvents id (.X2Button .Press pos), { m with mouse := { m.mouse with x2_button := mo } })
        else
          some (.None, m)
    | .MouseMove x y =>
      let mo := m.mouse.update_pos x y
      some (.MouseEvents id
              (.MouseMove mo.x mo.y mo.last_x mo.last_y mo.x_offset mo.y_offset),
            { m with mouse := mo })

/-- The per-iteration clear of `Manager::run` (lines 227-228 and 515-516):
`self.keyboard.clear(); self.mouse.clear_keystates();`. -/
def Manager.clearAll (m : Manager) : Manager :=
  { m with keyboard := m.keyboard.clear, mouse := m.mouse.clear_keystates }

/-- Embeds `Manager::get_char` (src/src/manager.rs line 810). -/
def Manager.get_char (m : Manager) (char : Nat) : Option Bool :=
  m.keyboard.is_char char

/-- Embeds `Manager::get_key` (src/src/manager.rs lines 823-833); `none` embeds
the `unwrap` panic on an out-of-range keycode. -/
def Manager.get_key (m : Manager) (keycode : Nat) : Option Action := do
  let d ← m.keyboard.is_down keycode
  let c ← m.keyboard.is_changed keycode
  if d && !c then some .Down
  else if d && c then some .Press
  else if !d && c then some .Release
  else some .None

/-- Embeds `Manager::get_mouse_button` (src/src/manager.rs lines 844-910);
`none` embeds the explicit `panic!` on an undefined button id. -/
def Manager.get_mouse_button (m : Manager) (button : Nat) : Option Action :=
  if button = Button.LBUTTON then
    some (if m.mouse.l_button.is_changed && m.mouse.l_button.is_down then .Press
      else if !m.mouse.l_button.is_changed && m.mouse.l_button.is_down then .Down
      else if !m.mouse.l_button.is_down && m.mouse.l_button.is_changed then .Release
      else .None)
  else if button = Button.RBUTTON then
    some (if m.mouse.r_button.is_changed && m.mouse.r_button.is_down then .Press
      else if !m.mouse.r_button.is_changed && m.mouse.r_button.is_down then .Down
      else if !m.mouse.r_button.is_down && m.mouse.r_button.is_changed then .Release
      else .None)
  else if button = Button.MBUTTON then
    some (if m.mouse.m_button.is_changed && m.mouse.m_button.is_down then .Press
      else if !m.mouse.m_button.is_changed && m.mouse.m_button.is_down then .Down
      else if !m.mouse.m_button.is_down && m.mouse.m_button.is_changed then .Release
      else .None)
  else if button = Button.XBUTTON1 then
    some (if m.mouse.x1_button.is_changed && m.mouse.x1_button.is_down then .Press
      else if !m.mouse.x1_button.is_changed && m.mouse.x1_button.is_down then .Down
      else if !m.mouse.x1_button.is_down && m.mouse.x1_button.is_changed then .Release
      else .None)
  else if button = Button.XBUTTON2 then
    some (if m.mouse.x2_button.is_changed && m.mouse.x2_button.is_down then .Press
      else if !m.mouse.x2_button.is_changed && m.mouse.x2_button.is_down then .Down
      else if !m.mouse.x2_button.is_down && m.mouse.x2_button.is_changed then .Release
      else .None)
  else
    none

/-- Result of draining the pending events of one polling interval. -/
inductive DrainOutcome (σ : Type) where
  | finished (m : Manager) (s : σ) (cf : ControlFlow)
  | exited (m : Manager) (s : σ)
  | panicked (code : Nat)

/-- The draining `while let Ok(..) = try_recv()` loop of `Manager::run`
(lines 226-514), with the channel embedded as the FIFO list `pending`
and the user callback as `cb`, threading the private callback state `σ`
and the `control_flow` variable exactly as the source does: the clear
runs at the top of every loop iteration (i.e. once per event), then the
event is translated, the callback runs, and `control_flow` is matched.
`none` embeds a panic from the translation; `panicked` embeds the
explicit `panic!` of the `ExitWithCode` arm. -/
def Manager.drain {σ : Type} (cb : σ → Events → ControlFlow → σ × ControlFlow) :
    Manager → σ → ControlFlow → List MainEvents → Option (DrainOutcome σ)
  | m, s, cf, [] => some (.finished m s cf)
  | m, s, cf, main_events :: rest => do
    let (events, m2) ← m.clearAll.translate main_events
    let (s2, cf2) := cb s events cf
    match cf2 with
    | .Continue => Manager.drain cb m2 s2 cf2 rest
    | .Exit => some (.exited { m2 with close := true } s2)
    | .ExitWithCode exit_code => some (.panicked exit_code)

/-- Result of one full cycle of the outer user-events loop. -/
inductive CycleOutcome (σ : Type) where
  | looped (m : Manager) (s : σ)
  | exited (m : Manager) (s : σ)
  | panicked (code : Nat)

/-- Embeds one iteration of the outer user-events loop of `Manager::run`
(lines 225-531): drain the pending events, then clear once more, invoke
the callback with the idle event (`Events::default()` = `Events.None`),
match `control_flow` and reset it to `Continue` for the next cycle. -/
def Manager.runCycle {σ : Type} (cb : σ → Events → ControlFlow → σ × ControlFlow)
    (m : Manager) (s : σ) (pending : List MainEvents) : Option (CycleOutcome σ) := do
  let r ← Manager.drain cb m s .Continue pending
  match r with
  | .exited m2 s2 => some (.exited m2 s2)
  | .panicked code => some (.panicked code)
  | .finished m2 s2 cf =>
    let m3 := m2.clearAll
    let (s3, cf2) := cb s2 Events.None cf
    match cf2 with
    | .Continue => some (.looped m3 s3)
    | .Exit => some (.exited { m3 with close := true } s3)
    | .ExitWithCode exit_code => some (.panicked exit_code)

/-- Straight-line translation of a pending batch, with the once-per-event
clear, recording the translated events in order.  This is what the
draining loop of the code feeds to the callback, stripped of the control-flow check. -/
def Manager.translateAll : Manager → List MainEvents → Option (List Events × Manager)
  | m, [] => some ([], m)
  | m, main_events :: rest => do
    let (events, m2) ← m.clearAll.translate main_events
    let (es, m3) ← m2.translateAll rest
    some (events :: es, m3)

/-- Modelled from the spec: the §4.4 draining discipline in which the
per-interval clear (keyboard `clear` + mouse `clear_keystates`) runs
exactly once per polling interval, before the raw notifications of the
interval are translated, and in particular not once per event. -/
def Manager.drainNoClear {σ : Type} (cb : σ → Events → ControlFlow → σ × ControlFlow) :
    Manager → σ → ControlFlow → List MainEvents → Option (DrainOutcome σ)
  | m, s, cf, [] => some (.finished m s cf)
  | m, s, cf, main_events :: rest => do
    let (events, m2) ← m.translate main_events
    let (s2, cf2) := cb s events cf
    match cf2 with
    | .Continue => Manager.drainNoClear cb m2 s2 cf2 rest
    | .Exit => some (.exited { m2 with close := true } s2)
    | .ExitWithCode exit_code => some (.panicked exit_code)

/-- Modelled from the spec: clear once, then translate and dispatch the
whole batch of the interval without further clears. -/
def Manager.drainSpec {σ : Type} (cb : σ → Events → ControlFlow → σ × ControlFlow)
    (m : Manager) (s : σ) (cf : ControlFlow) (pending : List MainEvents) :
    Option (DrainOutcome σ) :=
  Manager.drainNoClear cb m.clearAll s cf pending

/-- The manager held in a drain outcome (`none` for the panicked case). -/
def DrainOutcome.managerOf {σ : Type} : DrainOutcome σ → Option Manager
  | .finished m _ _ => some m
  | .exited m _ => some m
  | .panicked _ => none

/-- The callback state held in a drain outcome. -/
def DrainOutcome.stateOf {σ : Type} : DrainOutcome σ → Option σ
  | .finished _ s _ => some s
  | .exited _ s => some s
  | .panicked _ => none

/-- The callback state held in a cycle outcome. -/
def CycleOutcome.stateOf {σ : Type} : CycleOutcome σ → Option σ
  | .looped _ s => some s
  | .exited _ s => some s
  | .panicked _ => none

/-- Whether a cycle ended in the graceful `Exit` termination. -/
def CycleOutcome.isExit {σ : Type} : CycleOutcome σ → Bool
  | .exited _ _ => true
  | _ => false

/-- The panic code of a cycle that took the fatal `ExitWithCode` path. -/
def CycleOutcome.panicCodeOf {σ : Type} : CycleOutcome σ → Option Nat
  | .panicked code => some code
  | _ => none

/-- Modelled from the spec (§3): the Action derived on demand from the
`down` and `changed` bits of a key or button. -/
def Action.ofFlags (down changed : Bool) : Action :=
  if down && !changed then .Down
  else if down && changed then .Press
  else if !down && changed then .Release
  else .None

/-- The consumer callback that records every event it is handed, in
order, leaving ControlFlow untouched. -/
def recordCB : List Events → Events → ControlFlow → List Events × ControlFlow :=
  fun tr events cf => (tr ++ [events], cf)

@[simp]
lemma updFn_self {α : Type} (f : Nat → α) (k : Nat) (v : α) : updFn f k v k = v := by
  simp [updFn]

@[simp]
lemma updFn_ne {α : Type} (f : Nat → α) (k i : Nat) (v : α) (h : i ≠ k) :
    updFn f k v i = f i := by
  simp [updFn, h]

lemma get_key_eq (m : Manager) (k : Nat) (hk : k < m.keyboard.n_keys) :
    m.get_key k =
      some (Action.ofFlags (m.keyboard.keys k).is_down (m.keyboard.keys k).is_changed) := by
  cases hd : (m.keyboard.keys k).is_down <;> cases hc : (m.keyboard.keys k).is_changed <;>
    simp [Manager.get_key, Keyboard.is_down, Keyboard.is_changed, hk, hd, hc, Action.ofFlags]

lemma get_key_none (m : Manager) (k : Nat) (hk : m.keyboard.n_keys ≤ k) :
    m.get_key k = none := by
  simp [Manager.get_key, Keyboard.is_down, Nat.not_lt.mpr hk]

lemma get_char_eq (m : Manager) (k : Nat) (hk : k < m.keyboard.n_keys) :
    m.get_char k = some (m.keyboard.chars k) := by
  simp [Manager.get_char, Keyboard.is_char, hk]

lemma get_char_none (m : Manager) (k : Nat) (hk : m.keyboard.n_keys ≤ k) :
    m.get_char k = none := by
  simp [Manager.get_char, Keyboard.is_char, Nat.not_lt.mpr hk]

lemma get_mouse_button_eq (m : Manager) :
    m.get_mouse_button Button.LBUTTON = some (Action.ofFlags m.mouse.l_button.is_down m.mouse.l_button.is_changed) ∧
    m.get_mouse_button Button.RBUTTON = some (Action.ofFlags m.mouse.r_button.is_down m.mouse.r_button.is_changed) ∧
    m.get_mouse_button Button.MBUTTON = some (Action.ofFlags m.mouse.m_button.is_down m.mouse.m_button.is_changed) ∧
    m.get_mouse_button Button.XBUTTON1 = some (Action.ofFlags m.mouse.x1_button.is_down m.mouse.x1_button.is_changed) ∧
    m.get_mouse_button Button.XBUTTON2 = some (Action.ofFlags m.mouse.x2_button.is_down m.mouse.x2_button.is_changed) := by
  rcases m with ⟨mo, kb, cl⟩
  rcases mo with ⟨x, y, lx, ly, lb, rb, mb, xb1, xb2⟩
  refine ⟨?_, ?_, ?_, ?_, ?_⟩
  · rcases lb with ⟨d, r, c⟩; cases d <;> cases c <;> rfl
  · rcases rb with ⟨d, r, c⟩; cases d <;> cases c <;> rfl
  · rcases mb with ⟨d, r, c⟩; cases d <;> cases c <;> rfl
  · rcases xb1 with ⟨d, r, c⟩; cases d <;> cases c <;> rfl
  · rcases xb2 with ⟨d, r, c⟩; cases d <;> cases c <;> rfl

/-- Claim C4: `get_key` returns, for every keycode in the pre-populated
table, exactly the Action of the derivation formula in the spec applied to the
stored `down`/`changed` flags, and `get_mouse_button` applies the same
derivation to each of the five defined button slots. -/
theorem get_key_and_mouse_button_derivation (m : Manager) (k : Nat) :
    (k < m.keyboard.n_keys →
      m.get_key k =
        some (Action.ofFlags (m.keyboard.keys k).is_down (m.keyboard.keys k).is_changed)) ∧
    m.get_mouse_button Button.LBUTTON = some (Action.ofFlags m.mouse.l_button.is_down m.mouse.l_button.is_changed) ∧
    m.get_mouse_button Button.RBUTTON = some (Action.ofFlags m.mouse.r_button.is_down m.mouse.r_button.is_changed) ∧
    m.get_mouse_button Button.MBUTTON = some (Action.ofFlags m.mouse.m_button.is_down m.mouse.m_button.is_changed) ∧
    m.get_mouse_button Button.XBUTTON1 = some (Action.ofFlags m.mouse.x1_button.is_down m.mouse.x1_button.is_changed) ∧
    m.get_mouse_button Button.XBUTTON2 = some (Action.ofFlags m.mouse.x2_button.is_down m.mouse.x2_button.is_changed) := by
  exact ⟨fun hk => get_key_eq m k hk, get_mouse_button_eq m⟩

/-- Witness for C4 at the fresh manager and keycode 65. -/
theorem get_key_and_mouse_button_derivation_witness :
    (65 < Manager.default.keyboard.n_keys) ∧
    Manager.default.get_key 65 =
      some (Action.ofFlags (Manager.default.keyboard.keys 65).is_down
        (Manager.default.keyboard.keys 65).is_changed) :=
  ⟨by decide, (get_key_and_mouse_button_derivation Manager.default 65).1 (by decide)⟩

/-- Claim C8: querying an out-of-range keycode or an undefined button id
aborts (the `unwrap`/`panic!` is embedded as `none`) instead of returning
a default `Action.None`, while every in-table keycode and every defined
button id yields `some`. -/
theorem query_fail_fast (m : Manager) (k b : Nat) :
    (k < m.keyboard.n_keys → (m.get_key k).isSome ∧ (m.get_char k).isSome) ∧
    (m.keyboard.n_keys ≤ k → m.get_key k = none ∧ m.get_char k = none) ∧
    ((m.get_mouse_button b).isSome ↔
      b = Button.LBUTTON ∨ b = Button.RBUTTON ∨ b = Button.MBUTTON ∨
        b = Button.XBUTTON1 ∨ b = Button.XBUTTON2) := by
  refine ⟨fun hk => ?_, fun hk => ?_, ?_⟩
  · simp [get_key_eq m k hk, get_char_eq m k hk]
  · simp [get_key_none m k hk, get_char_none m k hk]
  · unfold Manager.get_mouse_button
    split_ifs with h1 h2 h3 h4 h5 <;> simp_all

/-- Witness for C8: keycode 65 and button `RBUTTON` succeed on the fresh
manager, keycode 300 aborts. -/
theorem query_fail_fast_witness :
    (Manager.default.get_key 65).isSome ∧
    Manager.default.get_key 300 = none ∧
    (Manager.default.get_mouse_button Button.RBUTTON).isSome :=
  ⟨((query_fail_fast Manager.default 65 0).1 (by decide)).1,
   ((query_fail_fast Manager.default 300 0).2.1 (by decide)).1,
   ((query_fail_fast Manager.default 0 Button.RBUTTON).2.2).mpr (by decide)⟩

/-- Claim C1 (amended: every table keycode except `Key::ALT`, whose arm
in `Manager::run` is a debug leftover): raw key-down with repeat bit `R`
sets `down := true` and `changed := (R == false)`; a repeat emits a
`Down` event, a first down with the released latch still set clears the
latch and emits `Press`, and otherwise the idle `Events::None` is
emitted. -/
theorem keydown_translation (m : Manager) (id k : Nat) (R : Bool)
    (hk : k < m.keyboard.n_keys) (hALT : k ≠ Key.ALT) :
    ∃ e m', m.translate (.MainKeyboardEvent id (.Key false (!R) k)) = some (e, m') ∧
      m'.keyboard.is_down k = some true ∧
      m'.keyboard.is_changed k = some (!R) ∧
      (R = true → e = .KeyboardEvents id (.Key k .Down) ∧
        m'.keyboard.is_released k = m.keyboard.is_released k) ∧
      (R = false → m.keyboard.is_released k = some true →
        e = .KeyboardEvents id (.Key k .Press) ∧ m'.keyboard.is_released k = some false) ∧
      (R = false → m.keyboard.is_released k = some false →
        e = Events.None ∧ m'.keyboard.is_released k = some false) := by
  cases R with
  | true =>
    simp only [Manager.translate, Keyboard.set_is_down, Keyboard.set_is_changed,
      Keyboard.is_changed, Keyboard.is_released, Keyboard.is_down, Keyboard.set_is_released,
      hk, if_pos, if_neg hALT, Bool.not_true]
    simp [hk, KeyState.set_down, KeyState.set_changed, Keyboard.is_down,
      Keyboard.is_changed, Keyboard.is_released]
    refine ⟨_, _, ⟨rfl, rfl⟩, ?_⟩
    simp [hk, Keyboard.is_down, Keyboard.is_changed, Keyboard.is_released]
  | false =>
    have hr : m.keyboard.is_released k = some ((m.keyboard.keys k).is_released) := by
      simp [Keyboard.is_released, hk]
    cases hrel : (m.keyboard.keys k).is_released with
    | true =>
      simp only [Manager.translate, Keyboard.set_is_down, Keyboard.set_is_changed,
        Keyboard.is_changed, Keyboard.is_released, Keyboard.is_down, Keyboard.set_is_released,
        hk, if_neg hALT, Bool.not_false]
      simp [hk, hr, hrel, KeyState.set_down, KeyState.set_changed, KeyState.set_released]
      refine ⟨_, _, ⟨rfl, rfl⟩, ?_⟩
      simp [hk, Keyboard.is_down, Keyboard.is_changed, Keyboard.is_released]
    | false =>
      simp only [Manager.translate, Keyboard.set_is_down, Keyboard.set_is_changed,
        Keyboard.is_changed, Keyboard.is_released, Keyboard.is_down, Keyboard.set_is_released,
        hk, if_neg hALT, Bool.not_false]
      simp [hk, hr, hrel, KeyState.set_down, KeyState.set_changed, KeyState.set_released]
      refine ⟨_, _, ⟨rfl, rfl⟩, ?_⟩
      simp [hk, Keyboard.is_down, Keyboard.is_changed, Keyboard.is_released]

/-- Witness for C1 at the fresh manager, keycode 65, non-repeat. -/
theorem keydown_translation_witness :
    (65 < Manager.default.keyboard.n_keys ∧ 65 ≠ Key.ALT) ∧
    (∃ e m', Manager.default.translate (.MainKeyboardEvent 0 (.Key false (!false) 65)) = some (e, m') ∧
      m'.keyboard.is_down 65 = some true ∧
      m'.keyboard.is_changed 65 = some (!false) ∧
      (false = true → e = .KeyboardEvents 0 (.Key 65 .Down) ∧
        m'.keyboard.is_released 65 = Manager.default.keyboard.is_released 65) ∧
      (false = false → Manager.default.keyboard.is_released 65 = some true →
        e = .KeyboardEvents 0 (.Key 65 .Press) ∧ m'.keyboard.is_released 65 = some false) ∧
      (false = false → Manager.default.keyboard.is_released 65 = some false →
        e = Events.None ∧ m'.keyboard.is_released 65 = some false)) :=
  ⟨⟨by decide, by decide⟩,
   keydown_translation Manager.default 0 65 false (by decide) (by decide)⟩

/-- Counterexample to C1 as stated: on raw key-down for `Key::ALT` (0x12)
the code leaves the down flag false (the claim requires it set to true)
and emits a `Release`-tagged event. -/
theorem keydown_alt_counterexample :
    ((Manager.default.translate (.MainKeyboardEvent 0 (.Key false true Key.ALT))).bind
        (fun p => p.2.keyboard.is_down Key.ALT)) ≠ some true ∧
    ((Manager.default.translate (.MainKeyboardEvent 0 (.Key false true Key.ALT))).bind
        (fun p => p.2.keyboard.is_down Key.ALT)) = some false ∧
    ((Manager.default.translate (.MainKeyboardEvent 0 (.Key false true Key.ALT))).map Prod.fst)
      = some (.KeyboardEvents 0 (.Key Key.ALT .Release)) := by
  decide

/-- Claim C2 (amended: every table keycode except `Key::ALT`): raw key-up
sets `down := false`, `changed := true`, `released := true` and always
emits a `Release` action event. -/
theorem keyup_translation (m : Manager) (id k : Nat) (c : Bool)
    (hk : k < m.keyboard.n_keys) (hALT : k ≠ Key.ALT) :
    ∃ m', m.translate (.MainKeyboardEvent id (.Key true c k)) =
        some (.KeyboardEvents id (.Key k .Release), m') ∧
      m'.keyboard.is_down k = some false ∧
      m'.keyboard.is_changed k = some true ∧
      m'.keyboard.is_released k = some true := by
  simp only [Manager.translate, Keyboard.set_is_down, Keyboard.set_is_changed,
    Keyboard.set_is_released, hk, if_neg hALT]
  simp [hk, KeyState.set_down, KeyState.set_changed, KeyState.set_released]
  simp [hk, Keyboard.is_down, Keyboard.is_changed, Keyboard.is_released]

/-- Witness for C2 at the fresh manager, keycode 65. -/
theorem keyup_translation_witness :
    (65 < Manager.default.keyboard.n_keys ∧ 65 ≠ Key.ALT) ∧
    (∃ m', Manager.default.translate (.MainKeyboardEvent 0 (.Key true false 65)) =
        some (.KeyboardEvents 0 (.Key 65 .Release), m') ∧
      m'.keyboard.is_down 65 = some false ∧
      m'.keyboard.is_changed 65 = some true ∧
      m'.keyboard.is_released 65 = some true) :=
  ⟨⟨by decide, by decide⟩,
   keyup_translation Manager.default 0 65 false (by decide) (by decide)⟩

/-- Counterexample to C2 as stated: on raw key-up for `Key::ALT` (0x12),
taken from a state where ALT is held down, the code leaves the whole key
state untouched — `changed` stays false and `down` stays true, where the
claim requires `changed = true` and `down = false` — although it does
emit the `Release` event. -/
theorem keyup_alt_counterexample :
    ((((Keyboard.new false).set_is_down Key.ALT true).bind (fun kb =>
        ({ mouse := Mouse.new, keyboard := kb, close := false } : Manager).translate
          (.MainKeyboardEvent 0 (.Key true true Key.ALT)))).bind
      (fun p => p.2.keyboard.is_changed Key.ALT)) ≠ some true ∧
    ((((Keyboard.new false).set_is_down Key.ALT true).bind (fun kb =>
        ({ mouse := Mouse.new, keyboard := kb, close := false } : Manager).translate
          (.MainKeyboardEvent 0 (.Key true true Key.ALT)))).bind
      (fun p => p.2.keyboard.is_down Key.ALT)) = some true ∧
    ((((Keyboard.new false).set_is_down Key.ALT true).bind (fun kb =>
        ({ mouse := Mouse.new, keyboard := kb, close := false } : Manager).translate
          (.MainKeyboardEvent 0 (.Key true true Key.ALT)))).bind
      (fun p => p.2.keyboard.is_released Key.ALT)) = some false := by
  decide

/-- Counterexample to C3 as stated: from a fresh state the raw sequence
key-down{65, repeat=false}, key-down{65, repeat=true}, key-up{65} does
not emit Press, Down, Release — the first key-down yields the idle
`Events::None` (the released latch starts false, so the Press branch is
not taken). -/
theorem scenario_press_down_release_counterexample :
    (Manager.default.translateAll
      [ .MainKeyboardEvent 0 (.Key false true 65)
      , .MainKeyboardEvent 0 (.Key false false 65)
      , .MainKeyboardEvent 0 (.Key true false 65) ]).map Prod.fst ≠
    some [ .KeyboardEvents 0 (.Key 65 .Press)
         , .KeyboardEvents 0 (.Key 65 .Down)
         , .KeyboardEvents 0 (.Key 65 .Release) ] := by
  decide

/-- Claim C3 amended: the sequence emits `Events::None`, then
`Key{65, Down}`, then `Key{65, Release}` — the consumer sees the Press
only through `get_key`, not as a pushed event. -/
theorem scenario_press_down_release_amended :
    (Manager.default.translateAll
      [ .MainKeyboardEvent 0 (.Key false true 65)
      , .MainKeyboardEvent 0 (.Key false false 65)
      , .MainKeyboardEvent 0 (.Key true false 65) ]).map Prod.fst =
    some [ Events.None
         , .KeyboardEvents 0 (.Key 65 .Down)
         , .KeyboardEvents 0 (.Key 65 .Release) ] := by
  decide

/-- Counterexample to C5 as stated: draining the two-key-down batch
shows the code clears once per event, not once per interval — under the
drain of the code the `changed` flag of the first key ends false (reset by the
clear that preceded the second event), while under the spec-modelled
once-per-interval drain (`drainSpec`) it ends true. -/
theorem clear_per_event_counterexample :
    (((Manager.drain (fun (s : Unit) _ cf => (s, cf)) Manager.default () .Continue
        [ .MainKeyboardEvent 0 (.Key false true 65)
        , .MainKeyboardEvent 0 (.Key false true 66) ]).bind
      DrainOutcome.managerOf).bind (fun m => m.keyboard.is_changed 65)) = some false ∧
    (((Manager.drainSpec (fun (s : Unit) _ cf => (s, cf)) Manager.default () .Continue
        [ .MainKeyboardEvent 0 (.Key false true 65)
        , .MainKeyboardEvent 0 (.Key false true 66) ]).bind
      DrainOutcome.managerOf).bind (fun m => m.keyboard.is_changed 65)) = some true := by
  decide

/-- Claim C5 amended: in the draining loop the clear (all keyboard
`changed`/`char` flags and the five button `changed` flags) runs once per
received event, at the top of each iteration before that event is
translated — so an earlier event of the same batch has its `changed`
flag reset by the clear that precedes the next event, while `down`
persists. -/
theorem clear_per_event (m : Manager) (id1 id2 k1 k2 : Nat)
    (h1 : k1 < m.keyboard.n_keys) (h2 : k2 < m.keyboard.n_keys)
    (hA1 : k1 ≠ Key.ALT) (hA2 : k2 ≠ Key.ALT) (hne : k2 ≠ k1) :
    ∃ m', Manager.drain (fun (s : Unit) _ cf => (s, cf)) m () .Continue
        [ .MainKeyboardEvent id1 (.Key false true k1)
        , .MainKeyboardEvent id2 (.Key false true k2) ] =
        some (.finished m' () .Continue) ∧
      m'.keyboard.is_changed k1 = some false ∧
      m'.keyboard.is_down k1 = some true ∧
      m'.keyboard.is_changed k2 = some true := by
  cases hr1 : (m.keyboard.keys k1).is_released <;>
    cases hr2 : (m.keyboard.keys k2).is_released <;>
    · simp [Manager.drain, Manager.clearAll, Manager.translate, Keyboard.clear,
        Mouse.clear_keystates, Keyboard.set_is_down, Keyboard.set_is_changed,
        Keyboard.set_is_released, Keyboard.is_changed, Keyboard.is_released,
        Keyboard.is_down, KeyState.set_down, KeyState.set_changed, KeyState.set_released,
        h1, h2, hA1, hA2, hne, Ne.symm hne, hr1, hr2]

/-- Witness for the amended C5 claim at the fresh manager, keys 65 and 66. -/
theorem clear_per_event_witness :
    (65 < Manager.default.keyboard.n_keys ∧ 66 < Manager.default.keyboard.n_keys ∧
      (65 : Nat) ≠ Key.ALT ∧ (66 : Nat) ≠ Key.ALT ∧ (66 : Nat) ≠ 65) ∧
    (∃ m', Manager.drain (fun (s : Unit) _ cf => (s, cf)) Manager.default () .Continue
        [ .MainKeyboardEvent 0 (.Key false true 65)
        , .MainKeyboardEvent 0 (.Key false true 66) ] =
        some (.finished m' () .Continue) ∧
      m'.keyboard.is_changed 65 = some false ∧
      m'.keyboard.is_down 65 = some true ∧
      m'.keyboard.is_changed 66 = some true) :=
  ⟨⟨by decide, by decide, by decide, by decide, by decide⟩,
   clear_per_event Manager.default 0 0 65 66 (by decide) (by decide) (by decide)
     (by decide) (by decide)⟩

/-- Claim C6: after each callback invocation the dispatcher matches
ControlFlow — with a callback that requests `Exit` on its 5th invocation,
a 10-event cycle invokes the callback exactly 5 times and terminates
(event 6 and the idle tick never dispatch); a callback that requests
`ExitWithCode 3` ends the cycle on the fatal panic path; a callback that
leaves `Continue` sees all 10 events plus the idle tick (11 invocations)
and the loop continues. -/
theorem controlflow_dispatch :
    ((Manager.runCycle (fun (n : Nat) _ cf => (n + 1, if n + 1 = 5 then .Exit else cf))
        Manager.default 0 (List.replicate 10 (.MainWindowEvent 0 .Create))).bind
      CycleOutcome.stateOf) = some 5 ∧
    ((Manager.runCycle (fun (n : Nat) _ cf => (n + 1, if n + 1 = 5 then .Exit else cf))
        Manager.default 0 (List.replicate 10 (.MainWindowEvent 0 .Create))).map
      CycleOutcome.isExit) = some true ∧
    ((Manager.runCycle (fun (n : Nat) _ _ => (n + 1, ControlFlow.ExitWithCode 3))
        Manager.default 0 (List.replicate 10 (.MainWindowEvent 0 .Create))).bind
      CycleOutcome.panicCodeOf) = some 3 ∧
    ((Manager.runCycle (fun (n : Nat) _ cf => (n + 1, cf))
        Manager.default 0 (List.replicate 10 (.MainWindowEvent 0 .Create))).bind
      CycleOutcome.stateOf) = some 11 ∧
    ((Manager.runCycle (fun (n : Nat) _ cf => (n + 1, cf))
        Manager.default 0 (List.replicate 10 (.MainWindowEvent 0 .Create))).map
      CycleOutcome.isExit) = some false := by
  decide

/-- Claim C7, failing-input evaluation: a raw right-button down at
(5, 6) updates the KeyState of the right button (down, not released, changed)
and leaves the left button untouched, but the emitted semantic event is
tagged `LButton` — the RButton/MButton arms of the code emit
`MouseEvents::LButton`, contradicting both the claim and the doc
comments on `MouseEvents` in src/src/events.rs. -/
theorem rbutton_event_mislabeled :
    ((Manager.default.translate (.MainMouseEvent 0 (.RButton false ⟨5, 6⟩))).map Prod.fst)
      = some (.MouseEvents 0 (.LButton .Press ⟨5, 6⟩)) ∧
    ((Manager.default.translate (.MainMouseEvent 0 (.RButton false ⟨5, 6⟩))).map
        (fun p => p.2.mouse.r_button)) = some (KeyState.new true false true) ∧
    ((Manager.default.translate (.MainMouseEvent 0 (.RButton false ⟨5, 6⟩))).map
        (fun p => p.2.mouse.l_button)) = some (KeyState.new false false false) ∧
    ((Manager.default.translate (.MainMouseEvent 0 (.MButton true ⟨5, 6⟩))).map Prod.fst)
      = some (.MouseEvents 0 (.LButton .Release ⟨5, 6⟩)) := by
  decide

lemma wrap16_eq_zero_iff (a b : Int) (ha : isI16 a) (hb : isI16 b) :
    wrap16 (a - b) = 0 ↔ a = b := by
  obtain ⟨ha1, ha2⟩ := ha
  obtain ⟨hb1, hb2⟩ := hb
  unfold wrap16
  omega

/-- Claim C9: `update_pos` shifts current into previous and stores the
new current; the offsets are always current minus previous (as `i16`
subtraction); the delta is 0 exactly when the same position repeats;
and `clear_keystates` never alters any of the four position fields. -/
theorem mouse_pos_update (mo : Mouse) (x1 y1 x2 y2 : Int)
    (hx1 : isI16 x1) (hy1 : isI16 y1) (hx2 : isI16 x2) (hy2 : isI16 y2) :
    ((mo.update_pos x1 y1).update_pos x2 y2).x = x2 ∧
    ((mo.update_pos x1 y1).update_pos x2 y2).y = y2 ∧
    ((mo.update_pos x1 y1).update_pos x2 y2).last_x = x1 ∧
    ((mo.update_pos x1 y1).update_pos x2 y2).last_y = y1 ∧
    ((mo.update_pos x1 y1).update_pos x2 y2).x_offset = wrap16 (x2 - x1) ∧
    ((mo.update_pos x1 y1).update_pos x2 y2).y_offset = wrap16 (y2 - y1) ∧
    (((mo.update_pos x1 y1).update_pos x2 y2).x_offset = 0 ↔ x2 = x1) ∧
    (((mo.update_pos x1 y1).update_pos x2 y2).y_offset = 0 ↔ y2 = y1) ∧
    mo.clear_keystates.x = mo.x ∧ mo.clear_keystates.y = mo.y ∧
    mo.clear_keystates.last_x = mo.last_x ∧ mo.clear_keystates.last_y = mo.last_y := by
  refine ⟨rfl, rfl, rfl, rfl, rfl, rfl, ?_, ?_, rfl, rfl, rfl, rfl⟩
  · simpa [Mouse.update_pos, Mouse.x_offset] using wrap16_eq_zero_iff x2 x1 hx2 hx1
  · simpa [Mouse.update_pos, Mouse.y_offset] using wrap16_eq_zero_iff y2 y1 hy2 hy1

/-- Witness for C9: the concrete scenario of the spec, `update_pos(10,20)`
then `update_pos(13,25)` gives offsets (3, 5). -/
theorem mouse_pos_update_witness :
    (isI16 (10 : Int) ∧ isI16 (20 : Int) ∧ isI16 (13 : Int) ∧ isI16 (25 : Int)) ∧
    ((Mouse.new.update_pos 10 20).update_pos 13 25).x_offset = 3 ∧
    ((Mouse.new.update_pos 10 20).update_pos 13 25).y_offset = 5 := by
  have h := mouse_pos_update Mouse.new 10 20 13 25 (by decide) (by decide) (by decide) (by decide)
  refine ⟨⟨by decide, by decide, by decide, by decide⟩, ?_, ?_⟩
  · rw [h.2.2.2.2.1]; decide
  · rw [h.2.2.2.2.2.1]; decide

/-- Claim C10: draining any pending FIFO batch hands the callback exactly
the in-order translations of the raw notifications — the pipeline never
reorders, drops or coalesces, and the idle `Events::None` translation
occupies its ordering slot. -/
theorem drain_preserves_order (m : Manager) (acc : List Events) (pending : List MainEvents) :
    (Manager.drain recordCB m acc .Continue pending).bind DrainOutcome.stateOf =
      (m.translateAll pending).map (fun p => acc ++ p.1) := by
  induction pending generalizing m acc with
  | nil => simp [Manager.drain, Manager.translateAll, DrainOutcome.stateOf]
  | cons ev rest ih =>
    cases h : m.clearAll.translate ev with
    | none => simp [Manager.drain, Manager.translateAll, h]
    | some p =>
      obtain ⟨e, m2⟩ := p
      simp [Manager.drain, Manager.translateAll, recordCB, h]
      rw [ih]
      cases h2 : m2.translateAll rest with
      | none => simp [h2]
      | some q =>
        obtain ⟨es, m3⟩ := q
        simp [h2]

end DGEWS
